import Mathlib

/-
Shallow embedding of the presence-tracking engine of `src/server.cpp`
(class `OnlineManager` and the HTTP handler lambdas in `main`).

Modelling conventions:
* `std::chrono::steady_clock::time_point` instants are modelled as `Nat`
  values at one-second resolution, matching the granularity at which the
  code compares them (`duration_cast<seconds>(now - last_active).count()`).
  The current time is passed explicitly to every operation that calls
  `now()` in the source.
* `std::unordered_set<std::string> online_users_` is a duplicate-free
  `List String`; `insert` is a no-op when the element is present,
  `erase` removes the element.
* `std::unordered_map<std::string, SessionInfo> sessions_` is an
  association list with unique keys; `operator[]` assignment overwrites
  the value when the key is present and appends otherwise.
* `generateSessionId` reads the wall clock and a PRNG; both reads are
  passed in as explicit oracle inputs (`timestamp`, `random_num`), so a
  login takes the minted session-id as a parameter.
* The HTTP handlers are modelled after JSON extraction: they take the
  extracted string field (`body.value(..., "")` yields `""` for a
  missing field) and return the response envelope together with the
  post-state of the manager.
-/

set_option autoImplicit false

namespace OnlineServer

/-- One entry of the session table: `struct SessionInfo` of `OnlineManager`
(session id, owning user id, last-active instant of the steady clock). -/
structure SessionInfo where
  session_id : String
  user_id : String
  last_active : Nat
deriving Repr, DecidableEq

/-- The state guarded by `mtx_` in `OnlineManager`, together with the cached
atomic counter: the online-user set `online_users_`, the session table
`sessions_`, and the cached count `total_online_`. -/
structure ManagerState where
  online_users : List String
  sessions : List (String × SessionInfo)
  total_online : Nat
deriving Repr, DecidableEq

/-- The state right after the `OnlineManager` constructor runs: both
containers empty, `total_online_` initialised to 0. -/
def initState : ManagerState :=
  { online_users := [], sessions := [], total_online := 0 }

/-- `online_users_.insert(u)`: a `std::unordered_set` insert, a no-op when
the element is already present. -/
def setInsert (u : String) (s : List String) : List String :=
  if u ∈ s then s else u :: s

/-- `online_users_.erase(u)`: removes the element equal to `u` if present. -/
def setErase (u : String) (s : List String) : List String :=
  s.filter (fun x => x ≠ u)

/-- `sessions_.find(k)`: lookup in the session table. -/
def mapFind (k : String) : List (String × SessionInfo) → Option SessionInfo
  | [] => none
  | (k2, v) :: rest => if k2 = k then some v else mapFind k rest

/-- `sessions_[k] = v`: overwrites the value when the key is live,
otherwise adds a fresh entry. -/
def mapInsert (k : String) (v : SessionInfo) :
    List (String × SessionInfo) → List (String × SessionInfo)
  | [] => [(k, v)]
  | (k2, v2) :: rest =>
      if k2 = k then (k, v) :: rest else (k2, v2) :: mapInsert k v rest

/-- `sessions_.erase(it)` where `it` points at key `k`. -/
def mapErase (k : String) (m : List (String × SessionInfo)) :
    List (String × SessionInfo) :=
  m.filter (fun e => e.1 ≠ k)

/-- `OnlineManager::generateSessionId`: concatenates the `sess_` tag, the
millisecond wall-clock stamp and the sampled 4-digit random integer. The
two environment reads are oracle inputs. No collision check is made. -/
def generateSessionId (timestamp : Nat) (random_num : Nat) : String :=
  "sess_" ++ toString timestamp ++ "_" ++ toString random_num

/-- `OnlineManager::userLogin`: inserts the user into `online_users_`,
stores the new session under the minted id, and refreshes `total_online_`
from the set size. The minted id is the oracle-determined result of
`generateSessionId`; `now` is the steady-clock instant. -/
def userLogin (st : ManagerState) (user_id : String) (session_id : String)
    (now : Nat) : ManagerState :=
  let users := setInsert user_id st.online_users
  { online_users := users
    sessions := mapInsert session_id ⟨session_id, user_id, now⟩ st.sessions
    total_online := users.length }

/-- `OnlineManager::userHeartbeat`: if the session exists, set its
`last_active` to `now` and return `true`; otherwise return `false`. -/
def userHeartbeat (st : ManagerState) (session_id : String) (now : Nat) :
    ManagerState × Bool :=
  match mapFind session_id st.sessions with
  | some info =>
      ({ st with
          sessions :=
            mapInsert session_id { info with last_active := now } st.sessions },
        true)
  | none => (st, false)

/-- `OnlineManager::userLogout`: if the session exists, erase its user id
from `online_users_`, erase the session, and refresh `total_online_` from
the set size; otherwise do nothing. -/
def userLogout (st : ManagerState) (session_id : String) : ManagerState :=
  match mapFind session_id st.sessions with
  | some info =>
      let users := setErase info.user_id st.online_users
      { online_users := users
        sessions := mapErase session_id st.sessions
        total_online := users.length }
  | none => st

/-- `OnlineManager::getOnlineCount`: reads the cached atomic counter. -/
def getOnlineCount (st : ManagerState) : Nat :=
  st.total_online

/-- `OnlineManager::getOnlineUsers`: a snapshot of `online_users_`. -/
def getOnlineUsers (st : ManagerState) : List String :=
  st.online_users

/-- `OnlineManager::isValidSession`: whether the session table holds the id. -/
def isValidSession (st : ManagerState) (session_id : String) : Bool :=
  (mapFind session_id st.sessions).isSome

/-- The loop body of `OnlineManager::cleanupExpiredSessions`: walks the
session table; an entry idle for strictly more than 60 seconds is erased
together with its user id in `online_users_`, the rest are kept. Returns
the surviving table and the updated set. -/
def cleanupLoop (now : Nat) :
    List (String × SessionInfo) → List String →
    List (String × SessionInfo) × List String
  | [], users => ([], users)
  | (sid, info) :: rest, users =>
      if now - info.last_active > 60 then
        cleanupLoop now rest (setErase info.user_id users)
      else
        let r := cleanupLoop now rest users
        ((sid, info) :: r.1, r.2)

/-- `OnlineManager::cleanupExpiredSessions`: runs the eviction loop and
refreshes `total_online_` from the resulting set size. -/
def cleanupExpiredSessions (st : ManagerState) (now : Nat) : ManagerState :=
  let r := cleanupLoop now st.sessions st.online_users
  { online_users := r.2, sessions := r.1, total_online := r.2.length }

/-- The `{code, message}` part of the JSON response envelope built by the
handler lambdas in `main`. -/
structure ApiResponse where
  code : Int
  message : String
deriving Repr, DecidableEq

/-- The `POST /api/online/login` handler lambda, after JSON extraction:
rejects an empty `user_id`, otherwise performs the login. -/
def loginHandler (st : ManagerState) (user_id : String) (session_id : String)
    (now : Nat) : ApiResponse × ManagerState :=
  if user_id = "" then
    (⟨-1, "user_id is required"⟩, st)
  else
    (⟨0, "login success"⟩, userLogin st user_id session_id now)

/-- The `POST /api/online/heartbeat` handler lambda, after JSON extraction:
rejects an empty `session_id`, otherwise reports the heartbeat result. -/
def heartbeatHandler (st : ManagerState) (session_id : String) (now : Nat) :
    ApiResponse × ManagerState :=
  if session_id = "" then
    (⟨-1, "session_id is required"⟩, st)
  else
    let r := userHeartbeat st session_id now
    (⟨if r.2 then 0 else -1,
      if r.2 then "heartbeat success" else "invalid session"⟩, r.1)

/-- The `POST /api/online/logout` handler lambda, after JSON extraction:
rejects an empty `session_id`, otherwise logs the session out and always
reports success. -/
def logoutHandler (st : ManagerState) (session_id : String) :
    ApiResponse × ManagerState :=
  if session_id = "" then
    (⟨-1, "session_id is required"⟩, st)
  else
    (⟨0, "logout success"⟩, userLogout st session_id)

/-- The distinct user-ids appearing across the live sessions of the table,
the quantity the spec's invariant I3 compares `online_count` against. -/
def distinctSessionUsers (st : ManagerState) : List String :=
  (st.sessions.map (fun e => e.2.user_id)).dedup

/-! Concrete traces, all starting from the freshly constructed manager.

`bobTrace3`: user "bob" logs in twice (two devices, distinct minted
session-ids), then logs the first device out. -/

def bobTrace1 : ManagerState :=
  userLogin initState "bob" (generateSessionId 100 1234) 0

def bobTrace2 : ManagerState :=
  userLogin bobTrace1 "bob" (generateSessionId 200 5678) 1

def bobTrace3 : ManagerState :=
  userLogout bobTrace2 (generateSessionId 100 1234)

/-- User "eve" holds two sessions, one last active at instant 0 and one at
instant 50, so at instant 70 only the first is expired. -/
def eveTrace : ManagerState :=
  userLogin (userLogin initState "eve" (generateSessionId 1 1111) 0) "eve"
    (generateSessionId 2 2222) 50

/-- User "a" logs in when the generator reads wall-clock millisecond 5 and
random draw 1000. -/
def collideTrace1 : ManagerState :=
  userLogin initState "a" (generateSessionId 5 1000) 0

/-- Then user "b" logs in within the same wall-clock millisecond and the
generator draws the same random number, minting the same session-id. -/
def collideTrace2 : ManagerState :=
  userLogin collideTrace1 "b" (generateSessionId 5 1000) 1

/-! Helper lemmas about the container operations. -/

/-- Looking up a key just erased from the session table fails. -/
theorem mapFind_mapErase_self (k : String) :
    ∀ m : List (String × SessionInfo), mapFind k (mapErase k m) = none := by
  intro m
  induction m with
  | nil => rfl
  | cons e rest ih =>
      obtain ⟨k2, v⟩ := e
      by_cases h : k2 = k
      · simp [mapErase, List.filter, h] at ih ⊢
        exact ih
      · simp [mapErase, List.filter, h] at ih ⊢
        simpa [mapFind, h] using ih

/-- Looking up a key just written to the session table returns the value. -/
theorem mapFind_mapInsert_self (k : String) (v : SessionInfo) :
    ∀ m : List (String × SessionInfo), mapFind k (mapInsert k v m) = some v := by
  intro m
  induction m with
  | nil => simp [mapInsert, mapFind]
  | cons e rest ih =>
      obtain ⟨k2, v2⟩ := e
      by_cases h : k2 = k
      · simp [mapInsert, mapFind, h]
      · simp [mapInsert, mapFind, h, ih]

/-- An element is in the set after inserting it. -/
theorem mem_setInsert_self (u : String) (s : List String) :
    u ∈ setInsert u s := by
  by_cases h : u ∈ s <;> simp [setInsert, h]

/-- `userLogout` of a session-id absent from the table changes nothing. -/
theorem userLogout_of_find_none (st : ManagerState) (s : String)
    (h : mapFind s st.sessions = none) : userLogout st s = st := by
  unfold userLogout
  split
  · next info heq => rw [h] at heq; cases heq
  · rfl

/-- Applying `userLogout` twice with the same session-id is the same as
applying it once. -/
theorem userLogout_idem_aux (st : ManagerState) (s : String) :
    userLogout (userLogout st s) s = userLogout st s := by
  cases h : mapFind s st.sessions with
  | none => rw [userLogout_of_find_none st s h, userLogout_of_find_none st s h]
  | some info =>
      apply userLogout_of_find_none
      simp [userLogout, h, mapFind_mapErase_self]

/-- The eviction loop keeps exactly the entries idle for at most 60 seconds,
in order and unchanged. -/
theorem cleanupLoop_fst (now : Nat) (l : List (String × SessionInfo)) :
    ∀ users, (cleanupLoop now l users).1
      = l.filter (fun e => now - e.2.last_active ≤ 60) := by
  induction l with
  | nil => intro users; rfl
  | cons e rest ih =>
      intro users
      obtain ⟨sid, info⟩ := e
      by_cases h : now - info.last_active > 60
      · simp [cleanupLoop, h, List.filter, Nat.not_le.mpr h, ih]
      · simp [cleanupLoop, h, List.filter, Nat.not_lt.mp h, ih]

/-! The claims. -/

/-- Claim C1: the claim says that with two live sessions for "bob",
`logout(s1)` leaves "bob" online and still counted, and only `logout(s2)`
removes the user. The code instead erases "bob" from `online_users_` on
the first logout even though session s2 is still live: after
`login("bob") = s1`, `login("bob") = s2`, `logout(s1)`, session s2 is
still valid yet the online set is empty and the count is 0. -/
theorem logout_one_of_two_sessions_drops_user :
    isValidSession bobTrace3 (generateSessionId 200 5678) = true
    ∧ getOnlineUsers bobTrace3 = []
    ∧ getOnlineCount bobTrace3 = 0 := by decide

/-- Claim C2: the claim says `online_count` equals the number of distinct
user-ids across live sessions in every reachable state. The reachable
state `bobTrace3` (login "bob" twice, logout the first session) refutes
it: one distinct user-id ("bob") appears across the live sessions while
the cached count is 0. -/
theorem online_count_diverges_from_session_users :
    distinctSessionUsers bobTrace3 = ["bob"]
    ∧ getOnlineCount bobTrace3 = 0 := by decide

/-- Claim C3: the claim says `list-users` returns every user-id referenced
by at least one live session. In the reachable state `bobTrace3` a live
session for "bob" exists, yet the returned snapshot is empty. -/
theorem online_users_list_omits_live_session_user :
    mapFind (generateSessionId 200 5678) bobTrace3.sessions
      = some ⟨generateSessionId 200 5678, "bob", 1⟩
    ∧ getOnlineUsers bobTrace3 = [] := by decide

/-- Claim C4: the claim says a sweep removes a user-id from the online set
only when the eviction removed the user's last session. In `eveTrace`,
"eve" holds a session last active at 0 and another last active at 50;
sweeping at instant 70 evicts only the first, yet "eve" is erased from the
online set and the count drops to 0 while the second session survives. -/
theorem sweep_drops_user_with_surviving_session :
    mapFind (generateSessionId 2 2222) (cleanupExpiredSessions eveTrace 70).sessions
      = some ⟨generateSessionId 2 2222, "eve", 50⟩
    ∧ getOnlineUsers (cleanupExpiredSessions eveTrace 70) = []
    ∧ getOnlineCount (cleanupExpiredSessions eveTrace 70) = 0 := by decide

/-- Claim C5: `cleanupExpiredSessions` evicts exactly the sessions whose
idle interval `now - last_active` strictly exceeds 60 seconds: the
surviving table is the original filtered to entries idle at most 60
seconds, kept in order and unchanged (steady-clock instants modelled at
one-second resolution, the granularity of the code's comparison). -/
theorem sweep_evicts_exactly_expired (st : ManagerState) (now : Nat) :
    (cleanupExpiredSessions st now).sessions
      = st.sessions.filter (fun e => now - e.2.last_active ≤ 60) := by
  simpa [cleanupExpiredSessions] using cleanupLoop_fst now st.sessions st.online_users

/-- Witness for claim C5 at a concrete state: sweeping `eveTrace` at
instant 70 filters out exactly the session idle for 70 seconds. -/
theorem sweep_evicts_exactly_expired_witness :
    (cleanupExpiredSessions eveTrace 70).sessions
      = eveTrace.sessions.filter (fun e => 70 - e.2.last_active ≤ 60) :=
  sweep_evicts_exactly_expired eveTrace 70

/-- Claim C6: the claim says the generator never mints an id colliding with
a live session's id and no login ever overwrites a live table entry. The
generator performs no collision check: when two logins fall in the same
wall-clock millisecond (5) and the PRNG repeats the draw (1000), the
second login silently overwrites the first user's live session — the
table still has one entry, now owned by "b" instead of "a". -/
theorem login_overwrites_live_session_on_collision :
    mapFind (generateSessionId 5 1000) collideTrace1.sessions
      = some ⟨generateSessionId 5 1000, "a", 0⟩
    ∧ mapFind (generateSessionId 5 1000) collideTrace2.sessions
      = some ⟨generateSessionId 5 1000, "b", 1⟩
    ∧ collideTrace2.sessions.length = 1
    ∧ isValidSession collideTrace2 (generateSessionId 5 1000) = true := by decide

/-- Claim C7: `userLogout` is idempotent — running it twice yields exactly
the state of running it once — and logging out a session-id absent from
the table leaves the state unchanged, with the handler still answering
code 0 ("logout success") for any non-empty such id. -/
theorem logout_idempotent_and_noop (st : ManagerState) (s : String) :
    userLogout (userLogout st s) s = userLogout st s
    ∧ (mapFind s st.sessions = none →
        userLogout st s = st
        ∧ (s ≠ "" → logoutHandler st s = (⟨0, "logout success"⟩, st))) := by
  refine ⟨userLogout_idem_aux st s,
    fun h => ⟨userLogout_of_find_none st s h, fun hs => ?_⟩⟩
  simp [logoutHandler, hs, userLogout_of_find_none st s h]

/-- Witness for claim C7: with one live session for "alice", logging out
the unknown id `sess_9_9999` changes nothing and reports success. -/
theorem logout_idempotent_and_noop_witness :
    userLogout (userLogin initState "alice" "sess_1_1111" 0) "sess_9_9999"
      = userLogin initState "alice" "sess_1_1111" 0
    ∧ logoutHandler (userLogin initState "alice" "sess_1_1111" 0) "sess_9_9999"
      = (⟨0, "logout success"⟩, userLogin initState "alice" "sess_1_1111" 0) :=
  ⟨((logout_idempotent_and_noop (userLogin initState "alice" "sess_1_1111" 0)
      "sess_9_9999").2 (by decide)).1,
   ((logout_idempotent_and_noop (userLogin initState "alice" "sess_1_1111" 0)
      "sess_9_9999").2 (by decide)).2 (by decide)⟩

/-- Claim C8: `userHeartbeat` returns true iff a session with that id
exists; when found, the state differs only in that session's
`last_active`, now set to the current instant; when not found the state
is unchanged, and the handler answers code -1 with message
"invalid session" for any non-empty unknown id. Heartbeat never creates
a session. -/
theorem heartbeat_found_iff_and_updates (st : ManagerState) (s : String) (now : Nat) :
    ((userHeartbeat st s now).2 = true ↔ (mapFind s st.sessions).isSome = true)
    ∧ (∀ info, mapFind s st.sessions = some info →
        userHeartbeat st s now
          = ({ st with
                sessions := mapInsert s { info with last_active := now } st.sessions },
             true)
        ∧ mapFind s (userHeartbeat st s now).1.sessions
            = some { info with last_active := now })
    ∧ (mapFind s st.sessions = none → userHeartbeat st s now = (st, false))
    ∧ (s ≠ "" → mapFind s st.sessions = none →
        heartbeatHandler st s now = (⟨-1, "invalid session"⟩, st)) := by
  refine ⟨?_, ?_, ?_, ?_⟩
  · cases h : mapFind s st.sessions <;> simp [userHeartbeat, h]
  · intro info h
    simp [userHeartbeat, h, mapFind_mapInsert_self]
  · intro h
    simp [userHeartbeat, h]
  · intro hs h
    simp [heartbeatHandler, hs, userHeartbeat, h]

/-- Witness for claim C8: heartbeat of "alice"'s live session succeeds and
refreshes its `last_active`; heartbeat of `sess_does_not_exist` reports
code -1 "invalid session" and leaves the state unchanged. -/
theorem heartbeat_found_iff_and_updates_witness :
    (userHeartbeat (userLogin initState "alice" "sess_1_1111" 0) "sess_1_1111" 42).2 = true
    ∧ mapFind "sess_1_1111"
        (userHeartbeat (userLogin initState "alice" "sess_1_1111" 0)
          "sess_1_1111" 42).1.sessions
        = some ⟨"sess_1_1111", "alice", 42⟩
    ∧ heartbeatHandler (userLogin initState "alice" "sess_1_1111" 0)
        "sess_does_not_exist" 42
        = (⟨-1, "invalid session"⟩, userLogin initState "alice" "sess_1_1111" 0) :=
  ⟨(heartbeat_found_iff_and_updates (userLogin initState "alice" "sess_1_1111" 0)
      "sess_1_1111" 42).1.mpr (by decide),
   ((heartbeat_found_iff_and_updates (userLogin initState "alice" "sess_1_1111" 0)
      "sess_1_1111" 42).2.1 ⟨"sess_1_1111", "alice", 0⟩ (by decide)).2,
   (heartbeat_found_iff_and_updates (userLogin initState "alice" "sess_1_1111" 0)
      "sess_does_not_exist" 42).2.2.2 (by decide) (by decide)⟩

/-- Claim C9: the login handler answers code -1 with message
"user_id is required" on an empty user-id and returns the state untouched:
no session is created, the online set and the count are unchanged. -/
theorem login_handler_rejects_empty_user_id (st : ManagerState) (sid : String)
    (now : Nat) :
    loginHandler st "" sid now = (⟨-1, "user_id is required"⟩, st) := rfl

/-- Claim C10: `userLogin` itself validates nothing and never fails: for
every user-id, the empty string included, it stores the session, inserts
the user-id into the online set, and sets the cached count to the new set
size; called directly on the fresh state with the empty string, "" becomes
one distinct online user. The empty-user-id rejection lives only in the
HTTP handler. -/
theorem userLogin_unvalidated_total (st : ManagerState) (uid sid : String)
    (now : Nat) :
    userLogin st uid sid now
      = { online_users := setInsert uid st.online_users
          sessions := mapInsert sid ⟨sid, uid, now⟩ st.sessions
          total_online := (setInsert uid st.online_users).length }
    ∧ uid ∈ (userLogin st uid sid now).online_users
    ∧ (userLogin initState "" sid now).online_users = [""]
    ∧ (userLogin initState "" sid now).total_online = 1
    ∧ loginHandler st "" sid now = (⟨-1, "user_id is required"⟩, st) :=
  ⟨rfl, mem_setInsert_self uid st.online_users, rfl, rfl, rfl⟩

end OnlineServer
